import Mathlib

/-!
Shallow embedding of the homelab-stack security audit script
(scripts/security_audit.py) together with theorems checking the
natural-language specification against it.

The embedding models the parsed YAML tree as an inductive `YVal`, each
Python primitive that can raise as an `Except`-valued function, and each
`check_*` method of `SecurityAuditor` as a function returning the findings
it appends together with an optional propagated exception.  Exception
message texts produced by the Python runtime are abstracted to short
fixed strings; no audited property depends on their wording.
-/

namespace SecurityAudit

/-- Character-list prefix test, mirroring Python str.startswith. -/
def prefixOf : List Char → List Char → Bool
  | [], _ => true
  | _ :: _, [] => false
  | a :: as, b :: bs => a == b && prefixOf as bs

/-- Character-list substring test, mirroring the Python `in` operator on strings. -/
def infixOf (nd : List Char) : List Char → Bool
  | [] => nd.isEmpty
  | x :: t => prefixOf nd (x :: t) || infixOf nd t

/-- Python `needle in hay` for strings. -/
def strIn (needle hay : String) : Bool := infixOf needle.toList hay.toList

/-- Python str.startswith. -/
def strStartsWith (s p : String) : Bool := prefixOf p.toList s.toList

/-- Python str.endswith. -/
def strEndsWith (s p : String) : Bool := prefixOf p.toList.reverse s.toList.reverse

/-- Python `c in s` for a single character. -/
def strContainsChar (s : String) (c : Char) : Bool := s.toList.any (· == c)

/-- Python str.count for a single-character argument. -/
def countChar (s : String) (c : Char) : Nat := s.toList.countP (· == c)

/-- Python str.lower, restricted to ASCII as used by the audited messages. -/
def strLower (s : String) : String := String.mk (s.toList.map Char.toLower)

/-- Splitting a character list on a separator character, Python str.split semantics. -/
def splitChar (c : Char) : List Char → List (List Char)
  | [] => [[]]
  | x :: xs =>
    if x == c then [] :: splitChar c xs
    else
      match splitChar c xs with
      | [] => [[x]]
      | h :: t => (x :: h) :: t

/-- Python s.split(c) for a one-character separator. -/
def pySplit (s : String) (c : Char) : List String := (splitChar c s.toList).map String.mk

/-- Helper for `pySplit1`: everything before the first separator, and the rest. -/
def splitOnceAux (c : Char) : List Char → List Char × Option (List Char)
  | [] => ([], none)
  | x :: xs =>
    if x == c then ([], some xs)
    else
      let r := splitOnceAux c xs
      (x :: r.1, r.2)

/-- Python s.split(c, 1) projected to the pair it yields when c occurs in s. -/
def pySplit1 (s : String) (c : Char) : String × String :=
  match splitOnceAux c s.toList with
  | (k, some v) => (String.mk k, String.mk v)
  | (k, none) => (String.mk k, "")

/-- Parsed YAML value, the shape yaml.safe_load hands to the auditor.
Mapping keys are restricted to strings, which is the shape of every
compose document the script consumes. -/
inductive YVal where
  | ynull
  | ybool (b : Bool)
  | yint (n : Int)
  | ystr (s : String)
  | ylist (xs : List YVal)
  | ymap (kvs : List (String × YVal))

/-- Python truthiness of a YAML value. -/
def pyTruthy : YVal → Bool
  | .ynull => false
  | .ybool b => b
  | .yint n => n != 0
  | .ystr s => !s.isEmpty
  | .ylist xs => !xs.isEmpty
  | .ymap kvs => !kvs.isEmpty

/-- Association-list lookup used to model Python dict indexing. -/
def ylookup (kvs : List (String × YVal)) (k : String) : Option YVal :=
  match kvs with
  | [] => none
  | (k2, v) :: rest => if k2 == k then some v else ylookup rest k

/-- Python d.get(k, default): raises AttributeError when the receiver is not a dict. -/
def pyGetD (v : YVal) (k : String) (d : YVal) : Except String YVal :=
  match v with
  | .ymap kvs => .ok ((ylookup kvs k).getD d)
  | _ => .error "AttributeError: no attribute get"

/-- Python d.items(): raises AttributeError when the receiver is not a dict. -/
def pyItems : YVal → Except String (List (String × YVal))
  | .ymap kvs => .ok kvs
  | _ => .error "AttributeError: no attribute items"

/-- Python iteration over a value: lists yield elements, strings yield
one-character strings, dicts yield their keys, everything else raises. -/
def pyIter : YVal → Except String (List YVal)
  | .ylist xs => .ok xs
  | .ystr s => .ok (s.toList.map (fun c => .ystr (String.mk [c])))
  | .ymap kvs => .ok (kvs.map (fun p => YVal.ystr p.1))
  | _ => .error "TypeError: not iterable"

/-- Python equality between a YAML value and a string literal. -/
def pyEqStr : YVal → String → Bool
  | .ystr s, t => s == t
  | _, _ => false

/-- Python `needle in container` for a string needle: substring for strings,
membership for lists, key membership for dicts, TypeError otherwise. -/
def pyInOp (needle : String) : YVal → Except String Bool
  | .ystr s => .ok (strIn needle s)
  | .ylist xs => .ok (xs.any (fun v => pyEqStr v needle))
  | .ymap kvs => .ok (kvs.any (fun p => p.1 == needle))
  | _ => .error "TypeError: argument not iterable"

/-- Python str() of a YAML value.  Only scalar ports are ever rendered by the
audited code paths; container rendering is abstracted. -/
def pyStr : YVal → String
  | .ynull => "None"
  | .ybool true => "True"
  | .ybool false => "False"
  | .yint n => toString n
  | .ystr s => s
  | .ylist _ => "[...]"
  | .ymap _ => "\x7b...\x7d"

/-- One security finding, as built by SecurityAuditor.add_finding. -/
structure Finding where
  severity : String
  category : String
  message : String
  file : String
  line : Nat
deriving DecidableEq, Repr

/-- Result of running one rule body: the findings appended to the global list
before control left the rule, and the exception it raised, if any. -/
abbrev Res := List Finding × Option String

/-- Sequencing of rule bodies: later findings are only produced while no
exception is in flight; findings made before a raise are kept. -/
def foldRes (f : α → Res) : List α → Res
  | [] => ([], none)
  | x :: xs =>
    match f x with
    | (fs, none) =>
      let r := foldRes f xs
      (fs ++ r.1, r.2)
    | (fs, some e) => (fs, some e)

/-- Shared shape of every per-service rule: fetch `services`, iterate items. -/
def perService (f : String → String → YVal → Res) (fp : String) (data : YVal) : Res :=
  match pyGetD data "services" (.ymap []) with
  | .error e => ([], some e)
  | .ok svcs =>
    match pyItems svcs with
    | .error e => ([], some e)
    | .ok entries => foldRes (fun p => f fp p.1 p.2) entries

/-- Capabilities treated as dangerous by check_privileged_containers. -/
def dangerous_caps : List String := ["SYS_ADMIN", "NET_ADMIN", "SYS_PTRACE", "SYS_MODULE"]

/-- Per-service body of check_privileged_containers. -/
def privFindings (fp n : String) (cfg : YVal) : Res :=
  match pyGetD cfg "privileged" (.ybool false) with
  | .error e => ([], some e)
  | .ok priv =>
    let fs1 : List Finding :=
      if pyTruthy priv then
        [⟨"HIGH", "Container Security",
          "Service \x27" ++ n ++ "\x27 runs in privileged mode", fp, 0⟩]
      else []
    match pyGetD cfg "cap_add" (.ylist []) with
    | .error e => (fs1, some e)
    | .ok capAdd =>
      match pyIter capAdd with
      | .error e => (fs1, some e)
      | .ok caps =>
        let fs2 := caps.filterMap (fun cap =>
          if dangerous_caps.any (fun d => pyEqStr cap d) then
            some ⟨"MEDIUM", "Container Security",
              "Service \x27" ++ n ++ "\x27 has dangerous capability: " ++ pyStr cap, fp, 0⟩
          else none)
        match pyGetD cfg "command" (.ystr "") with
        | .error e => (fs1 ++ fs2, some e)
        | .ok command =>
          let fs3 : List Finding :=
            match command with
            | .ystr c =>
              if strIn "--privileged" c then
                [⟨"HIGH", "Container Security",
                  "Service \x27" ++ n ++ "\x27 uses --privileged in command", fp, 0⟩]
              else []
            | _ => []
          (fs1 ++ fs2 ++ fs3, none)

/-- check_privileged_containers. -/
def check_privileged_containers (fp : String) (data : YVal) : Res :=
  perService privFindings fp data

/-- Per-service body of check_host_network_mode. -/
def hostNetFindings (fp n : String) (cfg : YVal) : Res :=
  match pyGetD cfg "network_mode" .ynull with
  | .error e => ([], some e)
  | .ok nm =>
    (if pyEqStr nm "host" then
      [⟨"MEDIUM", "Network Security",
        "Service \x27" ++ n ++ "\x27 uses host network mode", fp, 0⟩]
     else [], none)

/-- check_host_network_mode. -/
def check_host_network_mode (fp : String) (data : YVal) : Res :=
  perService hostNetFindings fp data

/-- Sensitive host paths flagged by check_volume_mounts. -/
def dangerous_mounts : List String :=
  ["/var/run/docker.sock", "/proc", "/sys", "/etc/passwd",
   "/etc/shadow", "/etc/sudoers", "/root/.ssh"]

/-- Findings contributed by one entry of a volumes list. -/
def volumeEntryFindings (fp n : String) (v : YVal) : List Finding :=
  match v with
  | .ystr vol =>
    if strContainsChar vol ':' then
      let host := (pySplit vol ':').headD ""
      let fsD := dangerous_mounts.filterMap (fun d =>
        if host == d then
          some ⟨(if d == "/var/run/docker.sock" then "HIGH" else "MEDIUM"),
            "Volume Security",
            "Service \x27" ++ n ++ "\x27 mounts dangerous path: " ++ d, fp, 0⟩
        else none)
      let fsB : List Finding :=
        if host == "/" || strStartsWith host "/home" then
          [⟨"HIGH", "Volume Security",
            "Service \x27" ++ n ++ "\x27 has broad filesystem access: " ++ host, fp, 0⟩]
        else []
      fsD ++ fsB
    else []
  | .ymap m =>
    let source := (ylookup m "source").getD (.ystr "")
    if dangerous_mounts.any (fun d => pyEqStr source d) then
      [⟨"HIGH", "Volume Security",
        "Service \x27" ++ n ++ "\x27 mounts dangerous path: " ++ pyStr source, fp, 0⟩]
    else []
  | _ => []

/-- Per-service body of check_volume_mounts. -/
def volFindings (fp n : String) (cfg : YVal) : Res :=
  match pyGetD cfg "volumes" (.ylist []) with
  | .error e => ([], some e)
  | .ok vols =>
    match pyIter vols with
    | .error e => ([], some e)
    | .ok vs => ((vs.map (volumeEntryFindings fp n)).flatten, none)

/-- check_volume_mounts. -/
def check_volume_mounts (fp : String) (data : YVal) : Res :=
  perService volFindings fp data

/-- Substrings of an environment key name that indicate a secret. -/
def secret_patterns : List String :=
  ["password", "passwd", "secret", "key", "token", "credential", "auth", "private"]

/-- Placeholder values never reported as hardcoded secrets. -/
def placeholderVals : List String := ["changeme", "your-password", "example"]

/-- Replacement-or-append on the association list modelling a Python dict. -/
def assocSet (m : List (String × YVal)) (k : String) (v : YVal) : List (String × YVal) :=
  match m with
  | [] => [(k, v)]
  | (k2, v2) :: rest =>
    if k2 == k then (k2, v) :: rest else (k2, v2) :: assocSet rest k v

/-- Building env_vars from the list form of `environment`.  The membership
test is the general Python `in` operator: list and dict entries that do not
contain an equals sign are skipped silently, int, bool and None entries
raise TypeError at the membership test, and a non-string entry that passes
the test raises at the split attribute access, as in the source. -/
def buildEnvVars (acc : List (String × YVal)) :
    List YVal → Except String (List (String × YVal))
  | [] => .ok acc
  | entry :: rest =>
    match pyInOp "=" entry with
    | .error e => .error e
    | .ok false => buildEnvVars acc rest
    | .ok true =>
      match entry with
      | .ystr e =>
        let kv := pySplit1 e '='
        buildEnvVars (assocSet acc kv.1 (.ystr kv.2)) rest
      | _ => .error "AttributeError: no attribute split"

/-- Findings contributed by one environment entry: one finding per matching
secret pattern, with the value conditions re-tested for each pattern. -/
def envEntryFindings (fp n k : String) (v : YVal) : List Finding :=
  secret_patterns.filterMap (fun pat =>
    if strIn pat (strLower k) then
      match v with
      | .ystr s =>
        if !(strStartsWith s "$\x7b") then
          if (s.length != 0) && !(placeholderVals.any (fun p => strLower s == p)) then
            some ⟨"HIGH", "Secret Management",
              "Service \x27" ++ n ++ "\x27 may have hardcoded secret in " ++ k, fp, 0⟩
          else none
        else none
      | _ => none
    else none)

/-- Per-service body of check_environment_variables. -/
def envFindings (fp n : String) (cfg : YVal) : Res :=
  match pyGetD cfg "environment" (.ymap []) with
  | .error e => ([], some e)
  | .ok env =>
    match env with
    | .ylist xs =>
      match buildEnvVars [] xs with
      | .error e => ([], some e)
      | .ok vars => ((vars.map (fun p => envEntryFindings fp n p.1 p.2)).flatten, none)
    | .ymap kvs => ((kvs.map (fun p => envEntryFindings fp n p.1 p.2)).flatten, none)
    | _ => ([], none)

/-- check_environment_variables. -/
def check_environment_variables (fp : String) (data : YVal) : Res :=
  perService envFindings fp data

/-- Per-service body of check_user_configuration. -/
def userFindings (fp n : String) (cfg : YVal) : Res :=
  match pyGetD cfg "user" .ynull with
  | .error e => ([], some e)
  | .ok user =>
    if pyEqStr user "root" || pyEqStr user "0" then
      ([⟨"MEDIUM", "Container Security",
        "Service \x27" ++ n ++ "\x27 explicitly runs as root", fp, 0⟩], none)
    else
      match user with
      | .ynull =>
        ([⟨"LOW", "Container Security",
          "Service \x27" ++ n ++ "\x27 doesn\x27t specify user (may run as root)", fp, 0⟩], none)
      | _ => ([], none)

/-- check_user_configuration. -/
def check_user_configuration (fp : String) (data : YVal) : Res :=
  perService userFindings fp data

/-- Short-circuiting Python any over the option entries with a generic `in` test. -/
def anyOptContains (needle : String) : List YVal → Except String Bool
  | [] => .ok false
  | opt :: rest =>
    match pyInOp needle opt with
    | .error e => .error e
    | .ok true => .ok true
    | .ok false => anyOptContains needle rest

/-- Short-circuiting Python any testing for an AppArmor/SELinux mention,
which lowercases each entry and so raises on non-string entries. -/
def anyOptMac : List YVal → Except String Bool
  | [] => .ok false
  | .ystr s :: rest =>
    if strIn "apparmor" (strLower s) || strIn "selinux" (strLower s) then .ok true
    else anyOptMac rest
  | _ :: _ => .error "AttributeError: no attribute lower"

/-- Per-service body of check_security_options. -/
def secOptFindings (fp n : String) (cfg : YVal) : Res :=
  match pyGetD cfg "security_opt" (.ylist []) with
  | .error e => ([], some e)
  | .ok so =>
    match pyIter so with
    | .error e => ([], some e)
    | .ok opts =>
      match anyOptContains "no-new-privileges:true" opts with
      | .error e => ([], some e)
      | .ok hasNNP =>
        let fs1 : List Finding :=
          if !hasNNP then
            [⟨"LOW", "Container Security",
              "Service \x27" ++ n ++
                "\x27 missing \x27no-new-privileges:true\x27 security option", fp, 0⟩]
          else []
        match anyOptMac opts with
        | .error e => (fs1, some e)
        | .ok hasMac =>
          (fs1 ++
            (if !hasMac then
              [⟨"INFO", "Container Security",
                "Service \x27" ++ n ++ "\x27 could benefit from AppArmor/SELinux profile",
                fp, 0⟩]
             else []), none)

/-- check_security_options. -/
def check_security_options (fp : String) (data : YVal) : Res :=
  perService secOptFindings fp data

/-- Per-service part of check_network_security. -/
def netSvcFindings (fp n : String) (cfg : YVal) : Res :=
  match pyGetD cfg "networks" (.ylist []) with
  | .error e => ([], some e)
  | .ok sn =>
    if pyTruthy sn then ([], none)
    else
      match pyInOp "network_mode" cfg with
      | .error e => ([], some e)
      | .ok hasNM =>
        (if !hasNM then
          [⟨"LOW", "Network Security",
            "Service \x27" ++ n ++ "\x27 uses default network (consider explicit network)",
            fp, 0⟩]
         else [], none)

/-- Per-network part of check_network_security. -/
def netDeclFindings (fp : String) (p : String × YVal) : Res :=
  match pyGetD p.2 "external" (.ybool false) with
  | .error e => ([], some e)
  | .ok ext =>
    (if pyTruthy ext then
      [⟨"INFO", "Network Security",
        "Network \x27" ++ p.1 ++ "\x27 is external - ensure it\x27s properly secured",
        fp, 0⟩]
     else [], none)

/-- check_network_security: the service loop, then the networks loop. -/
def check_network_security (fp : String) (data : YVal) : Res :=
  match pyGetD data "services" (.ymap []) with
  | .error e => ([], some e)
  | .ok svcs =>
    match pyGetD data "networks" (.ymap []) with
    | .error e => ([], some e)
    | .ok nets =>
      match pyItems svcs with
      | .error e => ([], some e)
      | .ok sEntries =>
        match foldRes (fun p => netSvcFindings fp p.1 p.2) sEntries with
        | (fs, some e) => (fs, some e)
        | (fs, none) =>
          match pyItems nets with
          | .error e => (fs, some e)
          | .ok nEntries =>
            match foldRes (netDeclFindings fp) nEntries with
            | (fs2, r) => (fs ++ fs2, r)

/-- Host ports treated as sensitive by check_port_exposure. -/
def dangerous_ports : List String := ["22", "23", "80", "443", "3389", "5432", "3306"]

/-- The container-port text str(port).split(&c) computed by check_port_exposure. -/
def portNumOf (p : YVal) : String :=
  (pySplit ((pySplit (pyStr p) ':').getLastD "") '/').headD ""

/-- Findings contributed by one entry of a ports list. -/
def portEntryFindings (fp n : String) (p : YVal) : List Finding :=
  (match p with
   | .ystr s =>
     if strStartsWith s "0.0.0.0:" || !(strContainsChar s ':') || countChar s ':' == 1 then
       [⟨"MEDIUM", "Network Security",
         "Service \x27" ++ n ++ "\x27 exposes port " ++ s ++ " to all interfaces", fp, 0⟩]
     else []
   | _ => []) ++
  (if dangerous_ports.any (fun d => d == portNumOf p) then
    [⟨"MEDIUM", "Network Security",
      "Service \x27" ++ n ++ "\x27 exposes sensitive port " ++ portNumOf p, fp, 0⟩]
   else [])

/-- Per-service body of check_port_exposure. -/
def portFindings (fp n : String) (cfg : YVal) : Res :=
  match pyGetD cfg "ports" (.ylist []) with
  | .error e => ([], some e)
  | .ok ports =>
    match pyIter ports with
    | .error e => ([], some e)
    | .ok ps => ((ps.map (portEntryFindings fp n)).flatten, none)

/-- check_port_exposure. -/
def check_port_exposure (fp : String) (data : YVal) : Res :=
  perService portFindings fp data

/-- Per-service body of check_restart_policies. -/
def restartFindings (fp n : String) (cfg : YVal) : Res :=
  match pyGetD cfg "restart" .ynull with
  | .error e => ([], some e)
  | .ok r =>
    (if pyEqStr r "always" then
      [⟨"LOW", "Container Security",
        "Service \x27" ++ n ++
          "\x27 uses \x27always\x27 restart (consider \x27unless-stopped\x27)", fp, 0⟩]
     else [], none)

/-- check_restart_policies. -/
def check_restart_policies (fp : String) (data : YVal) : Res :=
  perService restartFindings fp data

/-- Registries accepted by check_image_security. -/
def trusted_registries : List String :=
  ["docker.io", "ghcr.io", "quay.io", "registry.redhat.io", "mcr.microsoft.com", "gcr.io"]

/-- Per-service body of check_image_security; a non-string image raises at
the endswith attribute access. -/
def imageFindings (fp n : String) (cfg : YVal) : Res :=
  match pyGetD cfg "image" (.ystr "") with
  | .error e => ([], some e)
  | .ok img =>
    match img with
    | .ystr image =>
      let fs1 : List Finding :=
        if strEndsWith image ":latest" || !(strContainsChar image ':') then
          [⟨"LOW", "Image Security",
            "Service \x27" ++ n ++ "\x27 uses \x27latest\x27 tag or no tag specified", fp, 0⟩]
        else []
      let fs2 : List Finding :=
        if strContainsChar image '/' && !(trusted_registries.any (fun r => strIn r image)) then
          [⟨"MEDIUM", "Image Security",
            "Service \x27" ++ n ++ "\x27 uses image from potentially untrusted registry",
            fp, 0⟩]
        else []
      (fs1 ++ fs2, none)
    | _ => ([], some "AttributeError: no attribute endswith")

/-- check_image_security. -/
def check_image_security (fp : String) (data : YVal) : Res :=
  perService imageFindings fp data

/-- A rule, as invoked by audit_compose_file. -/
abbrev Rule := String → YVal → Res

/-- The ten checks in the order audit_compose_file invokes them. -/
def rulesList : List Rule :=
  [check_privileged_containers, check_host_network_mode, check_volume_mounts,
   check_environment_variables, check_user_configuration, check_security_options,
   check_network_security, check_port_exposure, check_restart_policies,
   check_image_security]

/-- Sequential execution of a list of rules over one document. -/
def runRules (fp : String) (rules : List Rule) (data : YVal) : Res :=
  foldRes (fun r => r fp data) rules

/-- The ERROR finding appended by the except branch of audit_compose_file. -/
def errFinding (fp e : String) : Finding :=
  ⟨"ERROR", "File Processing", "Failed to process " ++ fp ++ ": " ++ e, fp, 0⟩

/-- audit_compose_file generalized over the list of rules it runs. -/
def auditWithRules (fp : String) (rules : List Rule) (data : YVal) : List Finding :=
  if !(pyTruthy data) then []
  else
    match pyInOp "services" data with
    | .error e => [errFinding fp e]
    | .ok false => []
    | .ok true =>
      match runRules fp rules data with
      | (fs, none) => fs
      | (fs, some e) => fs ++ [errFinding fp e]

/-- audit_compose_file on one already-parsed document. -/
def auditComposeFile (fp : String) (data : YVal) : List Finding :=
  auditWithRules fp rulesList data

/-- The structured report assembled by run_audit. -/
structure AuditReport where
  findings : List Finding
  highCount : Nat
  mediumCount : Nat
  lowCount : Nat
  infoCount : Nat
  errorCount : Nat
  total_files : Nat
  total_findings : Nat
deriving DecidableEq, Repr

/-- Count of findings of one severity. -/
def sevCount (fs : List Finding) (sev : String) : Nat :=
  fs.countP (fun f => f.severity == sev)

/-- run_audit over a list of already-parsed files. -/
def run_audit (files : List (String × YVal)) : AuditReport :=
  let fs := (files.map (fun p => auditComposeFile p.1 p.2)).flatten
  { findings := fs
    highCount := sevCount fs "HIGH"
    mediumCount := sevCount fs "MEDIUM"
    lowCount := sevCount fs "LOW"
    infoCount := sevCount fs "INFO"
    errorCount := sevCount fs "ERROR"
    total_files := files.length
    total_findings := fs.length }

/-- Message keywords that exempt a HIGH finding in main. -/
def homelab_patterns : List String := ["docker.sock", "host network", "port", "privileged"]

/-- Whether a finding message matches the exemption keyword list. -/
def isExempt (msg : String) : Bool :=
  homelab_patterns.any (fun p => strIn p (strLower msg))

/-- The critical_issues list built by main. -/
def critical_issues (fs : List Finding) : List Finding :=
  fs.filter (fun f => f.severity == "HIGH" && !(isExempt f.message))

/-- The argument main passes to sys.exit. -/
def mainExitCode (fs : List Finding) : Nat :=
  if (critical_issues fs).isEmpty then 0 else 1

/-- Python slash.join over a list of strings. -/
def joinSlash : List String → String
  | [] => ""
  | [s] => s
  | s :: rest => s ++ "/" ++ joinSlash rest

/-- Python s.rsplit(c, 1) projected to the pair it yields when c occurs in s. -/
def rsplit1 (s : String) (c : Char) : String × String :=
  match splitOnceAux c s.toList.reverse with
  | (tagRev, some nameRev) => (String.mk nameRev.reverse, String.mk tagRev.reverse)
  | (allRev, none) => (String.mk allRev.reverse, "")

/-- parse_image_reference from scripts/check_updates.py: registry, name and
tag of an image reference; the registry defaults to docker.io, the first
slash-part becomes the registry when it contains a dot or a colon, and a
missing tag defaults to latest. -/
def parse_image_reference (image_ref : String) : String × String × String :=
  let parts := pySplit image_ref '/'
  let first := parts.headD ""
  let ri : String × String :=
    if strContainsChar first '.' || strContainsChar first ':' then
      (first, joinSlash parts.tail)
    else
      ("docker.io", image_ref)
  if strContainsChar ri.2 ':' then
    let nt := rsplit1 ri.2 ':'
    (ri.1, nt.1, nt.2)
  else
    (ri.1, ri.2, "latest")

/-- Document with one service, the shape used by the concrete test inputs. -/
def svcDoc (n : String) (cfg : YVal) : YVal := .ymap [("services", .ymap [(n, cfg)])]

/-- Document whose second service is a bare string, on which every rule
raises AttributeError at its first .get call. -/
def docRaise : YVal :=
  .ymap [("services", .ymap [("db", .ymap [("image", .ystr "nginx")]),
                             ("web", .ystr "boom")])]

/-- Selector for Secret Management findings. -/
def isSecretFinding (f : Finding) : Bool := f.category == "Secret Management"

/-- Selector for the unpinned-tag finding of check_image_security. -/
def isUnpinnedFinding (f : Finding) : Bool :=
  f.severity == "LOW" && f.category == "Image Security"

/-- Selector for the untrusted-registry finding of check_image_security. -/
def isUntrustedFinding (f : Finding) : Bool :=
  f.severity == "MEDIUM" && f.category == "Image Security"

/-- Claim C1: the process exit status is 0 iff every HIGH finding message
contains, case-insensitively, one of the exemption keywords; findings of
the other severities never affect the exit status. -/
theorem exit_status_policy (fs : List Finding) :
    (mainExitCode fs = 0 ↔ ∀ f ∈ fs, f.severity = "HIGH" → isExempt f.message = true)
    ∧ mainExitCode fs = mainExitCode (fs.filter (fun f => f.severity == "HIGH")) := by
  have hmain : mainExitCode fs = 0 ↔ (critical_issues fs).isEmpty = true := by
    unfold mainExitCode
    rcases h : (critical_issues fs).isEmpty with _ | _ <;> simp [h]
  have hkey : (critical_issues fs).isEmpty = true
      ↔ ∀ f ∈ fs, f.severity = "HIGH" → isExempt f.message = true := by
    rw [List.isEmpty_iff]
    unfold critical_issues
    rw [List.filter_eq_nil_iff]
    constructor
    · intro h f hf hsev
      have hc := h f hf
      rw [Bool.and_eq_true, beq_iff_eq, Bool.not_eq_true'] at hc
      rcases hx : isExempt f.message with _ | _
      · exact absurd ⟨hsev, hx⟩ hc
      · rfl
    · intro h f hf
      rw [Bool.and_eq_true, beq_iff_eq, Bool.not_eq_true']
      rintro ⟨hsev, hx⟩
      exact absurd (h f hf hsev) (by simp [hx])
  constructor
  · exact hmain.trans hkey
  · have hfix : critical_issues (fs.filter (fun f => f.severity == "HIGH"))
        = critical_issues fs := by
      unfold critical_issues
      rw [List.filter_filter]
      apply List.filter_congr
      intro f _
      rcases h : (f.severity == "HIGH") with _ | _ <;> simp [h]
    unfold mainExitCode
    rw [hfix]

/-- Witness for exit_status_policy at a singleton report whose HIGH finding
matches the keyword allowlist. -/
theorem exit_status_policy_witness :
    mainExitCode [⟨"HIGH", "Network Security",
      "Service \x27web\x27 exposes port 80 to all interfaces", "f", 0⟩] = 0 :=
  (exit_status_policy _).1.mpr (by decide)

/-- Claim C2 counterexample: a long-form mount of /proc is reported with
severity HIGH, not the MEDIUM the claim requires for non-socket paths. -/
theorem volume_longform_high_cex :
    (check_volume_mounts "f"
        (svcDoc "mon" (.ymap [("volumes",
          .ylist [.ymap [("source", .ystr "/proc"), ("target", .ystr "/proc")]])]))).1
      = [⟨"HIGH", "Volume Security",
          "Service \x27mon\x27 mounts dangerous path: /proc", "f", 0⟩]
    ∧ (check_volume_mounts "f"
        (svcDoc "mon" (.ymap [("volumes",
          .ylist [.ymap [("source", .ystr "/proc"), ("target", .ystr "/proc")]])]))).1.countP
        (fun f => f.severity == "MEDIUM") = 0 := by
  decide

/-- Claim C2 as amended: a short-form mount whose source is a sensitive path
yields one Volume Security finding, HIGH for the docker socket and MEDIUM
otherwise, while a long-form mount of any sensitive path yields one HIGH
Volume Security finding. -/
theorem volume_sensitive_mounts (n t src : String) (h : src ∈ dangerous_mounts) :
    volumeEntryFindings "f" n (.ystr (src ++ ":" ++ t))
      = [⟨(if src == "/var/run/docker.sock" then "HIGH" else "MEDIUM"), "Volume Security",
          "Service \x27" ++ n ++ "\x27 mounts dangerous path: " ++ src, "f", 0⟩]
    ∧ volumeEntryFindings "f" n (.ymap [("source", .ystr src)])
      = [⟨"HIGH", "Volume Security",
          "Service \x27" ++ n ++ "\x27 mounts dangerous path: " ++ src, "f", 0⟩] := by
  simp only [dangerous_mounts, List.mem_cons, List.not_mem_nil, or_false] at h
  rcases h with rfl | rfl | rfl | rfl | rfl | rfl | rfl <;> exact ⟨rfl, rfl⟩

/-- Witness for volume_sensitive_mounts at the /proc path. -/
theorem volume_sensitive_mounts_witness :
    ("/proc" ∈ dangerous_mounts)
    ∧ (volumeEntryFindings "f" "web" (.ystr ("/proc" ++ ":" ++ "/host/proc"))
        = [⟨(if "/proc" == "/var/run/docker.sock" then "HIGH" else "MEDIUM"),
            "Volume Security",
            "Service \x27" ++ "web" ++ "\x27 mounts dangerous path: " ++ "/proc", "f", 0⟩]
      ∧ volumeEntryFindings "f" "web" (.ymap [("source", .ystr "/proc")])
        = [⟨"HIGH", "Volume Security",
            "Service \x27" ++ "web" ++ "\x27 mounts dangerous path: " ++ "/proc", "f", 0⟩]) :=
  ⟨by decide, volume_sensitive_mounts "web" "/host/proc" "/proc" (by decide)⟩

/-- Claim C3 counterexample: on a document whose service web is malformed,
the first rule raises, the whole file audit collapses to one file-scoped
ERROR finding, and the finding the image rule would have produced for the
healthy service db is absent from the audit output. -/
theorem rule_error_not_scoped_cex :
    auditComposeFile "f" docRaise
      = [errFinding "f" "AttributeError: no attribute get"]
    ∧ (check_image_security "f" docRaise).1
      = [⟨"LOW", "Image Security",
          "Service \x27db\x27 uses \x27latest\x27 tag or no tag specified", "f", 0⟩]
    ∧ (⟨"LOW", "Image Security",
          "Service \x27db\x27 uses \x27latest\x27 tag or no tag specified", "f", 0⟩ : Finding)
        ∉ auditComposeFile "f" docRaise := by
  refine ⟨rfl, rfl, ?_⟩
  decide

/-- Sequencing lemma for foldRes over an appended list whose first part
finishes without error. -/
theorem foldRes_append (f : α → Res) (l1 l2 : List α) (fs : List Finding)
    (h : foldRes f l1 = (fs, none)) :
    foldRes f (l1 ++ l2) = (fs ++ (foldRes f l2).1, (foldRes f l2).2) := by
  induction l1 generalizing fs with
  | nil =>
    simp only [foldRes] at h
    cases h
    simp [List.nil_append]
  | cons x xs ih =>
    simp only [foldRes] at h ⊢
    rcases hx : f x with ⟨gs, err⟩
    rw [hx] at h
    cases err with
    | none =>
      simp only at h ⊢
      rcases hxs : foldRes f xs with ⟨hs, err2⟩
      rw [hxs] at h
      cases err2 with
      | none =>
        have hfs : gs ++ hs = fs := congrArg Prod.fst h
        simp only [List.append_eq]
        rw [ih hs (by rw [hxs])]
        simp [← hfs, List.append_assoc]
      | some e => exact absurd (congrArg Prod.snd h) (by simp)
    | some e => exact absurd (congrArg Prod.snd h) (by simp)

/-- Claim C3 as amended: when the rules before a raising rule finish
cleanly, the audit of the file keeps their findings and the findings the
raising rule emitted before the raise, appends exactly one file-scoped
ERROR finding, and skips every later rule. -/
theorem rule_error_boundary (fp : String) (d : YVal) (rs1 rs2 : List Rule) (r : Rule)
    (fs1 fs2 : List Finding) (e : String)
    (ht : pyTruthy d = true) (hm : pyInOp "services" d = .ok true)
    (h1 : runRules fp rs1 d = (fs1, none)) (h2 : r fp d = (fs2, some e)) :
    auditWithRules fp (rs1 ++ r :: rs2) d = fs1 ++ fs2 ++ [errFinding fp e] := by
  unfold auditWithRules
  rw [ht, hm]
  simp only [Bool.not_true, Bool.false_eq_true, if_false]
  unfold runRules at h1 ⊢
  rw [foldRes_append _ _ _ _ h1]
  simp [foldRes, h2, List.append_assoc]

/-- Witness for rule_error_boundary: the first rule raises on docRaise with
no earlier rules and no earlier findings. -/
theorem rule_error_boundary_witness :
    pyTruthy docRaise = true
    ∧ pyInOp "services" docRaise = .ok true
    ∧ runRules "f" [] docRaise = ([], none)
    ∧ check_privileged_containers "f" docRaise
        = ([], some "AttributeError: no attribute get")
    ∧ auditWithRules "f"
        ([] ++ check_privileged_containers ::
          [check_host_network_mode, check_volume_mounts, check_environment_variables,
           check_user_configuration, check_security_options, check_network_security,
           check_port_exposure, check_restart_policies, check_image_security]) docRaise
        = [] ++ [] ++ [errFinding "f" "AttributeError: no attribute get"] :=
  ⟨rfl, rfl, rfl, rfl,
    rule_error_boundary "f" docRaise [] _ _ [] [] _ rfl rfl rfl rfl⟩

/-- Claim C4 counterexample: the integer port binding 8080 specifies no
explicit host interface, yet the audit emits no Network Security finding at
all for it: the all-interfaces branch only fires for string bindings. -/
theorem port_integer_no_finding_cex :
    (check_port_exposure "f" (svcDoc "web" (.ymap [("ports", .ylist [.yint 8080])]))).1
      = [] := by
  decide

/-- Claim C4 as amended: an integer binding only ever receives the
sensitive-port finding; a string binding with the 0.0.0.0 prefix, without a
colon, or with exactly one colon receives the all-interfaces finding; and
any binding whose container-port text is on the sensitive list receives the
sensitive-port finding. -/
theorem port_exposure_findings :
    (∀ k : Int, portEntryFindings "f" "web" (.yint k)
        = (if dangerous_ports.any (fun d => d == portNumOf (.yint k)) then
            [⟨"MEDIUM", "Network Security",
              "Service \x27web\x27 exposes sensitive port " ++ portNumOf (.yint k), "f", 0⟩]
           else []))
    ∧ (∀ n s : String,
        (strStartsWith s "0.0.0.0:" || !(strContainsChar s ':') || countChar s ':' == 1)
            = true →
        (⟨"MEDIUM", "Network Security",
          "Service \x27" ++ n ++ "\x27 exposes port " ++ s ++ " to all interfaces",
          "f", 0⟩ : Finding) ∈ portEntryFindings "f" n (.ystr s))
    ∧ (∀ (n : String) (p : YVal), portNumOf p ∈ dangerous_ports →
        (⟨"MEDIUM", "Network Security",
          "Service \x27" ++ n ++ "\x27 exposes sensitive port " ++ portNumOf p,
          "f", 0⟩ : Finding) ∈ portEntryFindings "f" n p) := by
  refine ⟨fun k => rfl, ?_, ?_⟩
  · intro n s h
    simp [portEntryFindings, h]
  · intro n p h
    have hb : dangerous_ports.any (fun d => d == portNumOf p) = true := by
      rw [List.any_eq_true]
      exact ⟨portNumOf p, h, beq_self_eq_true _⟩
    rcases p with _ | b | k | s | xs | kvs <;> simp [portEntryFindings, hb]

/-- Witness for port_exposure_findings at a host-colon-container string
binding and at a binding with an explicit interface and sensitive port. -/
theorem port_exposure_findings_witness :
    ((strStartsWith "8080:80" "0.0.0.0:" || !(strContainsChar "8080:80" ':')
        || countChar "8080:80" ':' == 1) = true)
    ∧ (portNumOf (.ystr "127.0.0.1:8080:22") ∈ dangerous_ports)
    ∧ (⟨"MEDIUM", "Network Security",
        "Service \x27" ++ "web" ++ "\x27 exposes port " ++ "8080:80" ++ " to all interfaces",
        "f", 0⟩ : Finding) ∈ portEntryFindings "f" "web" (.ystr "8080:80")
    ∧ (⟨"MEDIUM", "Network Security",
        "Service \x27" ++ "web" ++ "\x27 exposes sensitive port "
          ++ portNumOf (.ystr "127.0.0.1:8080:22"),
        "f", 0⟩ : Finding) ∈ portEntryFindings "f" "web" (.ystr "127.0.0.1:8080:22") :=
  ⟨by decide, by decide,
    port_exposure_findings.2.1 "web" "8080:80" (by decide),
    port_exposure_findings.2.2 "web" (.ystr "127.0.0.1:8080:22") (by decide)⟩

/-- Claim C5: an environment entry whose value is a substitution reference
yields no Secret Management finding, while a hardcoded value under the same
key yields exactly one HIGH Secret Management finding. -/
theorem secret_substitution_vs_hardcoded :
    (auditComposeFile "f"
        (svcDoc "app" (.ymap [("environment",
          .ylist [.ystr "API_KEY=$\x7bSECRET_KEY\x7d"])]))).countP isSecretFinding = 0
    ∧ (auditComposeFile "f"
        (svcDoc "app" (.ymap [("environment",
          .ylist [.ystr "API_KEY=sk_live_abc123"])]))).filter isSecretFinding
      = [⟨"HIGH", "Secret Management",
          "Service \x27app\x27 may have hardcoded secret in API_KEY", "f", 0⟩] := by
  decide

/-- Claim C6 counterexample: the reference myregistry:5000/app carries no
tag, so the parse in check_updates.py assigns it the defaulted tag latest,
yet the audit emits no unpinned-tag finding for it, because the rule only
tests for a colon anywhere in the string. -/
theorem unpinned_tag_cex :
    parse_image_reference "myregistry:5000/app" = ("myregistry:5000", "app", "latest")
    ∧ (check_image_security "f"
        (svcDoc "app" (.ymap [("image", .ystr "myregistry:5000/app")]))).1.countP
        isUnpinnedFinding = 0 := by
  constructor
  · rfl
  · decide

/-- Evaluation of check_image_security on a one-service document, exposing
the two boolean triggers of the rule. -/
theorem check_image_security_eval (s : String) :
    check_image_security "f" (svcDoc "app" (.ymap [("image", .ystr s)]))
      = (((if strEndsWith s ":latest" || !(strContainsChar s ':') then
            [⟨"LOW", "Image Security",
              "Service \x27app\x27 uses \x27latest\x27 tag or no tag specified", "f", 0⟩]
           else [])
          ++ (if strContainsChar s '/'
                  && !(trusted_registries.any (fun r => strIn r s)) then
            [⟨"MEDIUM", "Image Security",
              "Service \x27app\x27 uses image from potentially untrusted registry", "f", 0⟩]
           else [])) ++ [], none) := rfl

/-- Claim C6 as amended: the unpinned-tag LOW finding is emitted iff the
image string ends in the latest tag or contains no colon at all; the
service with image nginx receives exactly one such finding and the parse
in check_updates.py assigns it the defaulted tag latest. -/
theorem unpinned_tag_findings :
    (∀ s : String,
      ((check_image_security "f" (svcDoc "app" (.ymap [("image", .ystr s)]))).1.countP
          isUnpinnedFinding = 1
        ↔ (strEndsWith s ":latest" || !(strContainsChar s ':')) = true))
    ∧ (auditComposeFile "f" (svcDoc "app" (.ymap [("image", .ystr "nginx")]))).countP
        isUnpinnedFinding = 1
    ∧ parse_image_reference "nginx" = ("docker.io", "nginx", "latest") := by
  refine ⟨?_, by decide, rfl⟩
  intro s
  rw [check_image_security_eval]
  rcases h1 : (strEndsWith s ":latest" || !(strContainsChar s ':')) with _ | _ <;>
    rcases h2 : (strContainsChar s '/'
        && !(trusted_registries.any (fun r => strIn r s))) with _ | _ <;>
    simp [h1, h2, isUnpinnedFinding, List.countP_append, List.countP_cons]

/-- Witness for unpinned_tag_findings applied at the image nginx. -/
theorem unpinned_tag_findings_witness :
    (check_image_security "f" (svcDoc "app" (.ymap [("image", .ystr "nginx")]))).1.countP
        isUnpinnedFinding = 1 :=
  (unpinned_tag_findings.1 "nginx").mpr (by decide)

/-- Claim C7 counterexample: the parse in check_updates.py assigns the
image myuser/myapp the default registry docker.io, which is on the trusted
allowlist, so the claim requires no finding, yet the audit emits one
untrusted-registry finding for it. -/
theorem untrusted_registry_cex :
    (parse_image_reference "myuser/myapp").1 = "docker.io"
    ∧ "docker.io" ∈ trusted_registries
    ∧ (check_image_security "f"
        (svcDoc "app" (.ymap [("image", .ystr "myuser/myapp")]))).1.countP
        isUntrustedFinding = 1 := by
  refine ⟨rfl, by decide, by decide⟩

/-- Claim C7 as amended: the untrusted-registry MEDIUM finding is emitted
iff the image string contains a slash and no trusted-registry name occurs
anywhere in it as a substring. -/
theorem untrusted_registry_findings (s : String) :
    (check_image_security "f" (svcDoc "app" (.ymap [("image", .ystr s)]))).1.countP
        isUntrustedFinding = 1
      ↔ (strContainsChar s '/' && !(trusted_registries.any (fun r => strIn r s))) = true := by
  rw [check_image_security_eval]
  rcases h1 : (strEndsWith s ":latest" || !(strContainsChar s ':')) with _ | _ <;>
    rcases h2 : (strContainsChar s '/'
        && !(trusted_registries.any (fun r => strIn r s))) with _ | _ <;>
    simp [h1, h2, isUntrustedFinding, List.countP_append, List.countP_cons]

/-- Witness for untrusted_registry_findings at the image gcr.io.evil.com/app,
whose registry slips through the substring-based allowlist. -/
theorem untrusted_registry_findings_witness :
    ¬ ((check_image_security "f"
        (svcDoc "app" (.ymap [("image", .ystr "gcr.io.evil.com/app")]))).1.countP
        isUntrustedFinding = 1) :=
  fun h => by
    have := (untrusted_registry_findings "gcr.io.evil.com/app").mp h
    exact absurd this (by decide)

/-- Association lookup misses exactly when no key of the list matches. -/
theorem ylookup_none_any (kvs : List (String × YVal)) (k : String)
    (h : ylookup kvs k = none) : (kvs.any (fun p => p.1 == k)) = false := by
  induction kvs with
  | nil => rfl
  | cons p rest ih =>
    rcases p with ⟨k2, v⟩
    by_cases hk : (k2 == k) = true
    · exact absurd h (by simp [ylookup, hk])
    · rw [Bool.not_eq_true] at hk
      simp only [ylookup, hk, Bool.false_eq_true, if_false] at h
      simp [List.any_cons, hk, ih h]

/-- Claim C8: a parsed document without a services key, and the empty
document, each contribute an empty report: zero findings, all severity
counts zero, and in particular no ERROR finding. -/
theorem no_services_graceful (fp : String) (kvs : List (String × YVal))
    (h : ylookup kvs "services" = none) :
    run_audit [(fp, .ymap kvs)]
      = { findings := [], highCount := 0, mediumCount := 0, lowCount := 0,
          infoCount := 0, errorCount := 0, total_files := 1, total_findings := 0 }
    ∧ run_audit [(fp, .ynull)]
      = { findings := [], highCount := 0, mediumCount := 0, lowCount := 0,
          infoCount := 0, errorCount := 0, total_files := 1, total_findings := 0 } := by
  have haudit : auditComposeFile fp (.ymap kvs) = [] := by
    unfold auditComposeFile auditWithRules
    rcases htr : pyTruthy (.ymap kvs) with _ | _
    · simp [htr]
    · have hin : pyInOp "services" (.ymap kvs) = .ok false := by
        show Except.ok (kvs.any (fun p => p.1 == "services")) = Except.ok false
        rw [ylookup_none_any kvs "services" h]
      simp [htr, hin]
  constructor
  · unfold run_audit
    simp [haudit, sevCount]
  · rfl

/-- Witness for no_services_graceful at a document carrying only a version
key. -/
theorem no_services_graceful_witness :
    ylookup [("version", .ystr "3")] "services" = none
    ∧ run_audit [("f", .ymap [("version", .ystr "3")])]
      = { findings := [], highCount := 0, mediumCount := 0, lowCount := 0,
          infoCount := 0, errorCount := 0, total_files := 1, total_findings := 0 } :=
  ⟨rfl, (no_services_graceful "f" [("version", .ystr "3")] rfl).1⟩

/-- The first nine rules of audit_compose_file, in source order. -/
def firstNine : List Rule :=
  [check_privileged_containers, check_host_network_mode, check_volume_mounts,
   check_environment_variables, check_user_configuration, check_security_options,
   check_network_security, check_port_exposure, check_restart_policies]

/-- The rules with check_image_security moved to the front. -/
def rulesPerm : List Rule := check_image_security :: firstNine

/-- Claim C9 counterexample: moving the image rule to the front on a
document whose second service makes rules raise changes the multiset of
findings, because a raising rule skips everything scheduled after it. -/
theorem rule_order_dependence_cex :
    rulesPerm.Perm rulesList
    ∧ ¬ (auditWithRules "f" rulesPerm docRaise).Perm
        (auditWithRules "f" rulesList docRaise) := by
  constructor
  · have h : rulesList = firstNine ++ [check_image_security] := rfl
    rw [h]
    show ([check_image_security] ++ firstNine).Perm (firstNine ++ [check_image_security])
    exact List.perm_append_comm
  · intro hp
    have hl := hp.length_eq
    have e1 : (auditWithRules "f" rulesPerm docRaise).length = 2 := rfl
    have e2 : (auditWithRules "f" rulesList docRaise).length = 1 := rfl
    rw [e1, e2] at hl
    exact absurd hl (by decide)

/-- When every element runs without error, foldRes is the concatenation of
the per-element findings. -/
theorem foldRes_all_ok (f : α → Res) (l : List α) (h : ∀ x ∈ l, (f x).2 = none) :
    foldRes f l = ((l.map (fun x => (f x).1)).flatten, none) := by
  induction l with
  | nil => rfl
  | cons x xs ih =>
    have hx := h x (List.mem_cons_self x xs)
    rcases hfx : f x with ⟨gs, err⟩
    rw [hfx] at hx
    simp only at hx
    subst hx
    simp [foldRes, hfx, ih (fun y hy => h y (List.mem_cons_of_mem _ hy))]

/-- Permuting an outer list permutes its concatenation. -/
theorem perm_flatten {l1 l2 : List (List α)} (h : l1.Perm l2) :
    l1.flatten.Perm l2.flatten := by
  induction h with
  | nil => exact List.Perm.refl _
  | cons x _ ih => simpa using ih.append_left x
  | swap x y l =>
    simp only [List.flatten_cons]
    rw [← List.append_assoc, ← List.append_assoc]
    exact List.perm_append_comm.append_right _
  | trans _ _ ih1 ih2 => exact ih1.trans ih2

/-- Claim C9 as amended: on a document where none of the rules raises, any
permutation of the rule order yields a permutation of the findings. -/
theorem rule_order_independence (fp : String) (d : YVal) (rs1 rs2 : List Rule)
    (hperm : rs1.Perm rs2) (hok : ∀ r ∈ rs1, (r fp d).2 = none) :
    (auditWithRules fp rs1 d).Perm (auditWithRules fp rs2 d) := by
  unfold auditWithRules
  rcases htr : pyTruthy d with _ | _
  · simp [htr]
  · simp only [htr, Bool.not_true, Bool.false_eq_true, if_false]
    rcases hin : pyInOp "services" d with e | b
    · exact List.Perm.refl _
    · rcases b with _ | _
      · exact List.Perm.refl _
      · have hok2 : ∀ r ∈ rs2, (r fp d).2 = none := fun r hr =>
          hok r (hperm.mem_iff.mpr hr)
        unfold runRules
        rw [foldRes_all_ok _ _ hok, foldRes_all_ok _ _ hok2]
        exact perm_flatten (hperm.map _)

/-- Witness for rule_order_independence swapping two rules on a healthy
one-service document. -/
theorem rule_order_independence_witness :
    ([check_image_security, check_restart_policies] : List Rule).Perm
       [check_restart_policies, check_image_security]
    ∧ (∀ r ∈ ([check_image_security, check_restart_policies] : List Rule),
        (r "f" (svcDoc "db" (.ymap [("image", .ystr "nginx")]))).2 = none)
    ∧ (auditWithRules "f" [check_image_security, check_restart_policies]
         (svcDoc "db" (.ymap [("image", .ystr "nginx")]))).Perm
       (auditWithRules "f" [check_restart_policies, check_image_security]
         (svcDoc "db" (.ymap [("image", .ystr "nginx")]))) := by
  have hperm : ([check_image_security, check_restart_policies] : List Rule).Perm
      [check_restart_policies, check_image_security] :=
    List.Perm.swap check_restart_policies check_image_security []
  have hok : ∀ r ∈ ([check_image_security, check_restart_policies] : List Rule),
      (r "f" (svcDoc "db" (.ymap [("image", .ystr "nginx")]))).2 = none := by
    intro r hr
    simp only [List.mem_cons, List.not_mem_nil, or_false] at hr
    rcases hr with rfl | rfl <;> rfl
  exact ⟨hperm, hok, rule_order_independence "f" _ _ _ hperm hok⟩

/-- filterMap with a constant payload is a replication counted by countP. -/
theorem filterMap_const_if (l : List α) (p : α → Bool) (c : β) :
    l.filterMap (fun a => if p a then some c else none)
      = List.replicate (l.countP p) c := by
  induction l with
  | nil => rfl
  | cons x xs ih =>
    rcases h : p x with _ | _ <;>
      simp [List.filterMap_cons, List.countP_cons, h, ih, List.replicate_succ]

/-- Claim C10: the hardcoded-secret rule emits one identical HIGH finding
per secret pattern occurring in the key name, and the key AUTH_TOKEN with
a hardcoded value receives two identical findings. -/
theorem secret_pattern_multiplicity :
    (∀ n k s : String, strStartsWith s "$\x7b" = false → (s.length != 0) = true →
        (placeholderVals.any (fun p => strLower s == p)) = false →
        envEntryFindings "f" n k (.ystr s)
          = List.replicate (secret_patterns.countP (fun pat => strIn pat (strLower k)))
              ⟨"HIGH", "Secret Management",
                "Service \x27" ++ n ++ "\x27 may have hardcoded secret in " ++ k, "f", 0⟩)
    ∧ (auditComposeFile "f" (svcDoc "app"
          (.ymap [("environment", .ymap [("AUTH_TOKEN", .ystr "supersecret123")])]))).filter
        isSecretFinding
      = [⟨"HIGH", "Secret Management",
          "Service \x27app\x27 may have hardcoded secret in AUTH_TOKEN", "f", 0⟩,
         ⟨"HIGH", "Secret Management",
          "Service \x27app\x27 may have hardcoded secret in AUTH_TOKEN", "f", 0⟩] := by
  constructor
  · intro n k s h1 h2 h3
    have hbody : envEntryFindings "f" n k (.ystr s)
        = secret_patterns.filterMap (fun pat =>
            if strIn pat (strLower k) then
              some (⟨"HIGH", "Secret Management",
                "Service \x27" ++ n ++ "\x27 may have hardcoded secret in " ++ k,
                "f", 0⟩ : Finding)
            else none) := by
      unfold envEntryFindings
      apply congrArg (fun g => List.filterMap g secret_patterns)
      funext pat
      rcases hcase : strIn pat (strLower k) with _ | _ <;> simp [hcase, h1, h2, h3]
    rw [hbody, filterMap_const_if]
  · decide

/-- Witness for secret_pattern_multiplicity at key AUTH_TOKEN and a
hardcoded value. -/
theorem secret_pattern_multiplicity_witness :
    strStartsWith "supersecret123" "$\x7b" = false
    ∧ ("supersecret123".length != 0) = true
    ∧ (placeholderVals.any (fun p => strLower "supersecret123" == p)) = false
    ∧ envEntryFindings "f" "app" "AUTH_TOKEN" (.ystr "supersecret123")
        = List.replicate
            (secret_patterns.countP (fun pat => strIn pat (strLower "AUTH_TOKEN")))
            ⟨"HIGH", "Secret Management",
              "Service \x27" ++ "app" ++ "\x27 may have hardcoded secret in " ++ "AUTH_TOKEN",
              "f", 0⟩ :=
  ⟨rfl, rfl, rfl,
    secret_pattern_multiplicity.1 "app" "AUTH_TOKEN" "supersecret123" rfl rfl rfl⟩

end SecurityAudit

